import Mathlib

/-!
Verification of the `linked` link-shortening service.

The Go sources are shallowly embedded: pure functions become Lean
functions, the SQLite store becomes an explicit `Db` state threaded
through the repository operations, HTTP handlers become functions from
request data to response values, and fallible Go code returns `Except`.
Timestamps are modelled as natural numbers (seconds); the RFC3339 text
form stored by the `Date` wrapper is order-isomorphic to chronological
time, so SQL `MAX(clicked_at)` is the numeric maximum.

The HS256-signed JWT is modelled symbolically: a signed token carries
its claims together with the key and the claims covered by the MAC, and
verification succeeds exactly when the stored key equals the verifier's
secret and the covered claims equal the carried claims. This is the
standard symbolic (perfect-MAC) model of a keyed MAC.
-/

namespace Linked

/-! ## Auth data model (internal/auth/middleware.go) -/

/-- Model of `tokenExpiry = 30 * 24 * time.Hour` from middleware.go, in seconds. -/
def tokenExpiry : Nat := 30 * 24 * 60 * 60

/-- Model of `cookieName = "auth_token"` from middleware.go. -/
def cookieName : String := "auth_token"

/-- Model of `auth.Credentials`: plain username/password pair. -/
structure Credentials where
  username : String
  password : String
deriving Repr, DecidableEq

/-- Model of `Credentials.Check`: exact equality of both fields
(`c.Username == other.Username && c.Password == other.Password`). -/
def Credentials.check (c other : Credentials) : Bool :=
  c.username == other.username && c.password == other.password

/-- Registered JWT claims used by `authClaims`: subject, issued-at and
expires-at (seconds). -/
structure AuthClaims where
  subject : String
  issuedAt : Nat
  expiresAt : Nat
deriving Repr, DecidableEq

/-- Symbolic model of an HS256-signed JWT: `claims` is the payload the
token carries, `macKey`/`macClaims` record which secret signed which
claims. A token is authentic for secret `s` iff `macKey = s` and
`macClaims = claims` (perfect-MAC assumption). -/
structure SignedToken where
  claims : AuthClaims
  macKey : String
  macClaims : AuthClaims
deriving Repr, DecidableEq

/-- The string value held by the `auth_token` cookie: empty, a string
that does not parse as a JWT, or a structurally valid signed token. -/
inductive TokenStr where
  | empty : TokenStr
  | garbage : String → TokenStr
  | signed : SignedToken → TokenStr
deriving Repr, DecidableEq

/-- Failure modes of `checkJWT` / `jwt.ParseWithClaims`: unparseable
token text, MAC mismatch, or expired `exp` claim. -/
inductive JwtError where
  | parseError : JwtError
  | invalidSignature : JwtError
  | expired : JwtError
deriving Repr, DecidableEq

/-- Model of `Authenticator`: the configured admin credential pair and the JWT
secret. -/
structure Authenticator where
  credentials : Credentials
  jwtSecret : String
deriving Repr, DecidableEq

/-- Model of `Authenticator.signJWT`: builds claims with `IssuedAt = now` and
`ExpiresAt = now + 30d` and signs them with the secret. -/
def signJWT (a : Authenticator) (username : String) (now : Nat) : SignedToken :=
  let claims : AuthClaims :=
    { subject := username, issuedAt := now, expiresAt := now + tokenExpiry }
  { claims := claims, macKey := a.jwtSecret, macClaims := claims }

/-- Model of `Authenticator.checkJWT`: `jwt.ParseWithClaims` with an HMAC key
function. Parsing fails on non-JWT text; signature verification fails
unless the token was MACed with this secret over exactly its claims;
the registered-claims validator rejects tokens whose `exp` is not in
the (strict) future. -/
def checkJWT (a : Authenticator) (ts : TokenStr) (now : Nat) :
    Except JwtError AuthClaims :=
  match ts with
  | .empty => .error .parseError
  | .garbage _ => .error .parseError
  | .signed t =>
    if t.macKey ≠ a.jwtSecret ∨ t.macClaims ≠ t.claims then
      .error .invalidSignature
    else if ¬ now < t.claims.expiresAt then
      .error .expired
    else
      .ok t.claims

/-- Go `http.SameSite` values (only `Lax` is used by this program). -/
inductive GoSameSite where
  | lax : GoSameSite
  | strict : GoSameSite
deriving Repr, DecidableEq

/-- Model of `http.Cookie` as populated by this program. -/
structure HttpCookie where
  name : String
  value : TokenStr
  path : String
  httpOnly : Bool
  secure : Bool
  sameSite : GoSameSite
  maxAge : Int
deriving Repr, DecidableEq

/-- Model of `Authenticator.generateCookie`: signs a JWT for `username` and
wraps it into the session cookie. Note `Secure` is hard-coded `false`
here (middleware.go:115); two of the three call sites overwrite it
with `c.IsTLS()` afterwards. -/
def generateCookie (a : Authenticator) (username : String) (now : Nat) :
    HttpCookie :=
  { name := cookieName
    value := .signed (signJWT a username now)
    path := "/"
    httpOnly := true
    secure := false
    sameSite := .lax
    maxAge := (30 * 24 * 60 * 60 : Int) }

/-- Model of `auth.ErrUnauthorized` and friends: the error values this program
distinguishes with `errors.Is`. -/
inductive AuthError where
  | unauthorized : AuthError
deriving Repr, DecidableEq

/-- Model of `Authenticator.Authenticate`: checks the submitted credentials
against the configured pair; on success returns the session cookie,
otherwise `ErrUnauthorized`. -/
def Authenticate (a : Authenticator) (creds : Credentials) (now : Nat) :
    Except AuthError HttpCookie :=
  if a.credentials.check creds then
    .ok (generateCookie a creds.username now)
  else
    .error .unauthorized

/-! ## Middleware strategy chain -/

/-- The request data the auth middleware reads: the `auth_token` cookie
(if present), the decoded `Authorization: Basic` credentials (if the
header is present and well-formed), and the connection's TLS state. -/
structure EchoRequest where
  authCookie : Option TokenStr
  basicAuth : Option Credentials
  isTLS : Bool
deriving Repr, DecidableEq

/-- Result of one `authStrategy` call: the `(bool, error)` pair
returned to the middleware loop, plus the cookies the strategy wrote
onto the response with `c.SetCookie`. -/
structure StrategyOutcome where
  ok : Bool
  errored : Bool
  setCookies : List HttpCookie
deriving Repr, DecidableEq

/-- Model of `Authenticator.authWithCookie`: missing or empty cookie falls
through as not-applicable; a cookie that fails JWT verification also
falls through (`return false, nil`); a verified cookie triggers a
refresh — a new cookie for the token's subject is generated and set —
and grants access. -/
def authWithCookie (a : Authenticator) (req : EchoRequest) (now : Nat) :
    StrategyOutcome :=
  match req.authCookie with
  | none => { ok := false, errored := false, setCookies := [] }
  | some v =>
    match v with
    | .empty => { ok := false, errored := false, setCookies := [] }
    | _ =>
      match checkJWT a v now with
      | .error _ => { ok := false, errored := false, setCookies := [] }
      | .ok claims =>
        { ok := true, errored := false
          setCookies := [generateCookie a claims.subject now] }

/-- Model of `Authenticator.authWithBasicAuth`: missing/malformed header falls
through; otherwise `Authenticate` is called, its failure is returned as
an error (the loop `continue`s), and on success the new cookie — with
`Secure` overwritten by `c.IsTLS()` — is set and access granted. -/
def authWithBasicAuth (a : Authenticator) (req : EchoRequest) (now : Nat) :
    StrategyOutcome :=
  match req.basicAuth with
  | none => { ok := false, errored := false, setCookies := [] }
  | some creds =>
    match Authenticate a creds now with
    | .error _ => { ok := false, errored := true, setCookies := [] }
    | .ok cookie =>
      { ok := true, errored := false
        setCookies := [{ cookie with secure := req.isTLS }] }

/-- Outcome of the middleware: either the protected handler runs
(access granted), or `echo.ErrUnauthorized` is returned. Either way the
cookies already written by the strategies ride on the response. -/
inductive MWResult where
  | granted : List HttpCookie → MWResult
  | unauthorized : List HttpCookie → MWResult
deriving Repr, DecidableEq

/-- Model of `NewAuthMiddleware`: runs `[authWithCookie, authWithBasicAuth]` in
order; a strategy error means `continue`, the first strategy returning
`true` short-circuits to the handler, and if no strategy grants access
the middleware denies with `echo.ErrUnauthorized`. -/
def authMiddleware (a : Authenticator) (req : EchoRequest) (now : Nat) :
    MWResult :=
  let r1 := authWithCookie a req now
  if !r1.errored && r1.ok then
    .granted r1.setCookies
  else
    let r2 := authWithBasicAuth a req now
    if !r2.errored && r2.ok then
      .granted (r1.setCookies ++ r2.setCookies)
    else
      .unauthorized (r1.setCookies ++ r2.setCookies)

/-! ## Storage layer (internal/db/db.go schema, internal/repo) -/

/-- A row of the `links` table (`linkRow`): `id INTEGER PRIMARY KEY
AUTOINCREMENT`, `slug TEXT UNIQUE NOT NULL`, `url TEXT NOT NULL`,
`created_at TEXT NOT NULL`. -/
structure LinkRow where
  id : Nat
  slug : String
  url : String
  createdAt : Nat
deriving Repr, DecidableEq

/-- A row of the `clicks` table (`clickRow`): id, `link_id` with
`FOREIGN KEY(link_id) REFERENCES links(id) ON DELETE CASCADE`,
`clicked_at`, `user_agent`, `ip_address`. -/
structure ClickRow where
  id : Nat
  linkId : Nat
  clickedAt : Nat
  userAgent : String
  ipAddress : String
deriving Repr, DecidableEq

/-- The SQLite database state: the two tables plus the AUTOINCREMENT
counters. -/
structure Db where
  links : List LinkRow
  clicks : List ClickRow
  nextLinkId : Nat
  nextClickId : Nat
deriving Repr, DecidableEq

/-- The empty database right after `migrate` (AUTOINCREMENT starts
at 1). -/
def Db.empty : Db :=
  { links := [], clicks := [], nextLinkId := 1, nextClickId := 1 }

/-- Errors raised by the SQLite storage engine itself: the UNIQUE
constraint on `links.slug`, the foreign-key constraint on
`clicks.link_id` (the `foreign_keys(1)` pragma is set in db.go), and
`busy`, standing for an external statement failure such as
SQLITE_BUSY after the 5000 ms busy timeout or an I/O error. -/
inductive DbError where
  | uniqueConstraint : String → String → DbError
  | foreignKeyConstraint : DbError
  | busy : DbError
deriving Repr, DecidableEq

/-- The Go error values the handlers distinguish with `errors.Is`:
a raw storage-layer error passed through unchanged, the sentinels
`internal.ErrSlugExists` and `internal.ErrLinkNotFound`, and fresh
`errors.New` values (such as `"link not found"` in `GetBySlug`).
`errors.Is err internal.ErrSlugExists` holds exactly for the
`slugExists` sentinel: a raw driver error never wraps it. -/
inductive RepoError where
  | dbErr : DbError → RepoError
  | slugExists : RepoError
  | linkNotFound : RepoError
  | plain : String → RepoError
deriving Repr, DecidableEq

/-- Model of `INSERT INTO links (slug, url, created_at) VALUES (...) RETURNING
...`: the UNIQUE constraint on `slug` rejects a duplicate of any
existing row; otherwise the row is appended with the next id. -/
def insertLink (db : Db) (slug url : String) (now : Nat) :
    Except DbError (LinkRow × Db) :=
  if db.links.any (fun r => r.slug == slug) then
    .error (.uniqueConstraint "links" "slug")
  else
    let row : LinkRow :=
      { id := db.nextLinkId, slug := slug, url := url, createdAt := now }
    .ok (row, { db with links := db.links ++ [row]
                        nextLinkId := db.nextLinkId + 1 })

/-- Model of `LinksRepo.Create` (repo/links.go:39): attempts the insert once and
returns the storage-layer error unchanged on failure — it performs no
translation into `internal.ErrSlugExists`. (The `!found` branch after
a successful RETURNING insert is unreachable and therefore not
modelled.) -/
def linksCreate (db : Db) (slug url : String) (now : Nat) :
    Except RepoError (LinkRow × Db) :=
  match insertLink db slug url now with
  | .error e => .error (.dbErr e)
  | .ok (row, db') => .ok (row, db')

/-- Model of `ClickStats` (`clickStatsRow.toDomain`): `COUNT(*)` and
`MAX(clicked_at)`; the maximum is absent when there are no rows. -/
structure ClickStats where
  total : Nat
  lastClickedAt : Option Nat
deriving Repr, DecidableEq

/-- SQL `MAX(clicked_at)` over a list of click rows: `NULL` (absent)
on the empty list, otherwise the greatest timestamp. Stored RFC3339
text compares lexicographically in chronological order, so the text
MAX is the numeric maximum. -/
def lastClickFold (rows : List ClickRow) : Option Nat :=
  rows.foldl
    (fun acc r =>
      match acc with
      | none => some r.clickedAt
      | some m => some (max m r.clickedAt))
    none

/-- Model of `ClicksRepo.GetStatsForLink` (repo/clicks.go:60): `SELECT COUNT(*)
AS total, MAX(clicked_at) AS last_clicked_at FROM clicks WHERE
link_id = ?`. The aggregate query always yields exactly one row, so
the function never errors: zero matching rows give count 0 and a NULL
maximum, scanned into the zero-value stats. -/
def getStatsForLink (db : Db) (linkId : Nat) : ClickStats :=
  let rows := db.clicks.filter (fun r => r.linkId == linkId)
  { total := rows.length, lastClickedAt := lastClickFold rows }

/-- Model of `ClicksRepo.Create` (repo/clicks.go:39): a single `INSERT INTO
clicks ...` with the current timestamp. `externalFailure` injects a
storage-engine failure of this one statement (`DbError.busy`); with it
absent the insert succeeds whenever the referenced link exists, and
violates the foreign-key constraint otherwise. -/
def clicksCreate (db : Db) (linkId : Nat) (userAgent ipAddress : String)
    (now : Nat) (externalFailure : Bool) : Except RepoError Db :=
  if externalFailure then
    .error (.dbErr .busy)
  else if db.links.any (fun r => r.id == linkId) then
    .ok { db with
          clicks := db.clicks ++
            [{ id := db.nextClickId, linkId := linkId, clickedAt := now
               userAgent := userAgent, ipAddress := ipAddress }]
          nextClickId := db.nextClickId + 1 }
  else
    .error (.dbErr .foreignKeyConstraint)

/-- The `Link` domain type returned by the links repo: the row fields
augmented with the click stats. -/
structure Link where
  id : Nat
  slug : String
  url : String
  createdAt : Nat
  clicks : Nat
  lastClick : Option Nat
deriving Repr, DecidableEq

/-- Model of `LinksRepo.GetBySlug` (repo/links.go:68): exact-match lookup on
`slug`; a missing row yields a fresh `errors.New "link not found"`
(not the `internal.ErrLinkNotFound` sentinel); a found row is
augmented with its click stats. -/
def getBySlug (db : Db) (slug : String) : Except RepoError Link :=
  match db.links.find? (fun r => r.slug == slug) with
  | none => .error (.plain "link not found")
  | some row =>
    let stats := getStatsForLink db row.id
    .ok { id := row.id, slug := row.slug, url := row.url
          createdAt := row.createdAt
          clicks := stats.total, lastClick := stats.lastClickedAt }

/-- Modelled from the spec: `LinksRepo.Delete` is absent from the
sources (only its caller `LinkHandler.DeleteLink`, the sentinel
`internal.ErrLinkNotFound` and the cascading schema are present).
Spec §4.5: "`Delete(id) -> success | NotFound`: deletes the row; if
zero rows were affected, reports `NotFound` rather than silently
succeeding." The row deletion cascades to the `clicks` rows through
`ON DELETE CASCADE` in the schema (db/db.go:76) with the
`foreign_keys(1)` pragma enabled. -/
def linksDelete (db : Db) (id : Nat) : Except RepoError Db :=
  if db.links.any (fun r => r.id == id) then
    .ok { db with
          links := db.links.filter (fun r => !(r.id == id))
          clicks := db.clicks.filter (fun r => !(r.linkId == id)) }
  else
    .error .linkNotFound

/-! ## Slug generation and validation (repo/links.go, handler/auth.go) -/

/-- The `charset` constant of `GenerateSlug` (repo/links.go:144):
all 26 lowercase letters, all 26 uppercase letters, and the 10
digits — 62 characters, with no exclusions. -/
def slugCharset : List Char :=
  "abcdefghijklmnopqrstuvwxyzABCDEFGHIJKLMNOPQRSTUVWXYZ0123456789".toList

/-- Model of `GenerateSlug` (repo/links.go:143): six draws of
`charset[rand.Intn(len(charset))]`. The randomness source is the
function `r`; `r i % 62` models the i-th uniform draw of
`rand.Intn(62)`. -/
def generateSlug (r : Nat → Nat) : String :=
  ⟨(List.range 6).map (fun i => slugCharset.getD (r i % 62) 'a')⟩

/-- The `slugRegex` match `^[a-zA-Z0-9-_]+$` (handler/auth.go:105). -/
def slugRegexMatch (s : String) : Bool :=
  s != "" && s.toList.all
    (fun c => c.isAlpha || c.isDigit || c == '-' || c == '_')

/-- Model of `CreateLinkRequest`: the JSON body of `POST /api/links`. -/
structure CreateLinkRequest where
  url : String
  slug : String
deriving Repr, DecidableEq

/-- Model of `CreateLinkRequest.Validate` (handler/auth.go:107): the url is
required; a non-empty slug must be at least 5 bytes long and match the
slug regex. Returns the error message when invalid. Go's `len` counts
bytes, hence `utf8ByteSize`. -/
def validateCreateLink (req : CreateLinkRequest) : Option String :=
  if req.url == "" then
    some "url is required"
  else if req.slug != "" && req.slug.utf8ByteSize < 5 then
    some "slug must be at least 5 characters long"
  else if req.slug != "" && !slugRegexMatch req.slug then
    some "slug must contain only letters, numbers, and hyphens or underscores"
  else
    none

/-! ## Link handlers (internal/handler/auth.go) -/

/-- The response of `LinkHandler.CreateLink`, with its HTTP status. -/
inductive CreateLinkResult where
  | badRequest : String → CreateLinkResult
  | conflict : CreateLinkResult
  | serverError : RepoError → CreateLinkResult
  | created : LinkRow → CreateLinkResult
deriving Repr, DecidableEq

/-- The HTTP status code of each `CreateLink` outcome: 400, 409
("slug already exists"), 500, 201. -/
def CreateLinkResult.status : CreateLinkResult → Nat
  | .badRequest _ => 400
  | .conflict => 409
  | .serverError _ => 500
  | .created _ => 201

/-- The error mapping inside `CreateLink` (handler/auth.go:157):
`errors.Is(err, internal.ErrSlugExists)` selects 409, anything else
becomes 500. -/
def createLinkErrResult (e : RepoError) : CreateLinkResult :=
  if e = .slugExists then .conflict else .serverError e

/-- Model of `LinkHandler.CreateLink` (handler/auth.go:140): validate, fill an
empty slug with `repo.GenerateSlug()`, call `LinksRepo.Create`, map
errors, and answer 201 with the created link. -/
def createLink (db : Db) (req : CreateLinkRequest) (r : Nat → Nat)
    (now : Nat) : CreateLinkResult × Db :=
  match validateCreateLink req with
  | some msg => (.badRequest msg, db)
  | none =>
    match linksCreate db (if req.slug == "" then generateSlug r else req.slug)
        req.url now with
    | .error e => (createLinkErrResult e, db)
    | .ok (row, db') => (.created row, db')

/-- The response of `LinkHandler.DeleteLink`, with its HTTP status. -/
inductive DeleteLinkResult where
  | notFound : DeleteLinkResult
  | serverError : RepoError → DeleteLinkResult
  | noContent : DeleteLinkResult
deriving Repr, DecidableEq

/-- The HTTP status of each `DeleteLink` outcome: 404 ("link not
found"), 500, 204. -/
def DeleteLinkResult.status : DeleteLinkResult → Nat
  | .notFound => 404
  | .serverError _ => 500
  | .noContent => 204

/-- Model of `LinkHandler.DeleteLink` (handler/auth.go:225) after the id has
been parsed: calls `LinksRepo.Delete`, maps
`errors.Is(err, internal.ErrLinkNotFound)` to 404, other errors to
500, success to 204. -/
def deleteLink (db : Db) (id : Nat) : DeleteLinkResult × Db :=
  match linksDelete db id with
  | .error e =>
    (if e = .linkNotFound then .notFound else .serverError e, db)
  | .ok db' => (.noContent, db')

/-- The response of `LinkHandler.Redirect`: 404 for an unknown slug,
otherwise a redirect with the given status code and location. -/
inductive RedirectResult where
  | notFound : RedirectResult
  | redirect : Nat → String → RedirectResult
deriving Repr, DecidableEq

/-- The HTTP status of a redirect-handler response: 404 ("link not
found") or the redirect status itself. -/
def RedirectResult.status : RedirectResult → Nat
  | .notFound => 404
  | .redirect s _ => s

/-- The full outcome of one redirect request: the response, the
database afterwards, and how many click INSERTs were attempted. -/
structure RedirectOutcome where
  response : RedirectResult
  db : Db
  clickAttempts : Nat
deriving Repr, DecidableEq

/-- Model of `LinkHandler.Redirect` (handler/auth.go:201): resolve the slug
(any lookup failure answers 404 and writes nothing); on success
attempt exactly one click insert, log-and-discard its error, and
answer `http.StatusPermanentRedirect` (308) to the stored URL
regardless of the click-write outcome. -/
def redirectHandler (db : Db) (slug userAgent ipAddress : String)
    (now : Nat) (externalFailure : Bool) : RedirectOutcome :=
  match getBySlug db slug with
  | .error _ => { response := .notFound, db := db, clickAttempts := 0 }
  | .ok link =>
    match clicksCreate db link.id userAgent ipAddress now externalFailure with
    | .error _ =>
      { response := .redirect 308 link.url, db := db, clickAttempts := 1 }
    | .ok db' =>
      { response := .redirect 308 link.url, db := db', clickAttempts := 1 }

/-! ## Client-IP extraction (handler/auth.go getClientIP)

`net.ParseIP` delegates to `netip.ParseAddr` and rejects zoned
addresses; the validators below transcribe that algorithm. -/

/-- Decimal value of a digit list (the accumulator of netip's
`parseIPv4Fields`). -/
def decToNat (cs : List Char) : Nat :=
  cs.foldl (fun a c => a * 10 + (c.toNat - '0'.toNat)) 0

/-- Split a character list at every occurrence of `sep` (the field
boundaries netip's IPv4 scanner walks over). -/
def splitOnChar (sep : Char) : List Char → List (List Char)
  | [] => [[]]
  | c :: rest =>
    let r := splitOnChar sep rest
    if c == sep then
      [] :: r
    else
      match r with
      | [] => [[c]]
      | g :: gs => (c :: g) :: gs

/-- netip `parseIPv4`: exactly four dot-separated fields, each a
non-empty run of decimal digits with value at most 255 and no leading
zero (a multi-digit field may not start with '0'). -/
def parseIPv4Valid (s : String) : Bool :=
  let fields := splitOnChar '.' s.toList
  fields.length == 4 && fields.all (fun f =>
    ¬ f.isEmpty && f.all Char.isDigit &&
    decToNat f ≤ 255 &&
    (f.length == 1 || f.head? ≠ some '0'))

/-- Whether a character is a hexadecimal digit as accepted by netip's
`parseIPv6` field scanner. -/
def isHexDigit (c : Char) : Bool :=
  c.isDigit || ('a' ≤ c && c ≤ 'f') || ('A' ≤ c && c ≤ 'F')

/-- Take the leading run of hex digits: returns how many were consumed
and the rest. (The field's numeric value is at most 0xffff whenever at
most four digits are consumed, so it plays no role in validity.) -/
def takeHexDigits : List Char → Nat × List Char
  | [] => (0, [])
  | c :: rest =>
    if isHexDigit c then
      let (n, rest') := takeHexDigits rest
      (n + 1, rest')
    else
      (0, c :: rest)

/-- After netip's `parseIPv6` loop: with fewer than 16 bytes filled an
ellipsis must be present to expand; with all 16 filled an ellipsis is
forbidden ("the :: must expand to at least one field"). -/
def ipv6FinishCheck (i : Nat) (ellipsis : Bool) : Bool :=
  if i < 16 then ellipsis else !ellipsis

/-- The field loop of netip's `parseIPv6`, on the string after any
leading `::`. `i` counts bytes filled, `ellipsis` whether a `::` has
been seen. Each step consumes a 1–4 hex-digit field and then either
ends, switches to an embedded IPv4 address at a '.', or consumes one
(or, for a `::`, two) colons. The fuel is at least the number of
remaining characters, which bounds the number of steps. -/
def parseIPv6Aux : Nat → List Char → Nat → Bool → Bool
  | 0, _, _, _ => false
  | fuel + 1, s, i, ellipsis =>
    if 16 ≤ i then
      s.isEmpty && ipv6FinishCheck i ellipsis
    else
      let (ndig, rest) := takeHexDigits s
      if ndig == 0 || 4 < ndig then false
      else
        match rest with
        | '.' :: _ =>
          parseIPv4Valid (String.mk s) &&
            (if ellipsis then i + 4 < 16 else i == 12)
        | [] => ipv6FinishCheck (i + 2) ellipsis
        | ':' :: rest2 =>
          match rest2 with
          | [] => false
          | ':' :: rest3 =>
            if ellipsis then false
            else if rest3.isEmpty then ipv6FinishCheck (i + 2) true
            else parseIPv6Aux fuel rest3 (i + 2) true
          | _ => parseIPv6Aux fuel rest2 (i + 2) ellipsis
        | _ => false

/-- netip `parseIPv6`: handles the optional leading `::` (the bare
string `::` is the valid unspecified address) and runs the field
loop. Zoned addresses contain '%', which the field loop rejects, as
`net.ParseIP` does. -/
def parseIPv6Valid (s : String) : Bool :=
  match s.toList with
  | ':' :: ':' :: rest =>
    if rest.isEmpty then true
    else parseIPv6Aux (rest.length + 1) rest 0 true
  | cs => parseIPv6Aux (cs.length + 1) cs 0 false

/-- Model of `net.ParseIP(s) != nil`: netip's dispatch scans for the first
'.', ':' or '%'; a '.' selects the IPv4 parser, a ':' the IPv6 parser,
a '%' or no special character at all is invalid. -/
def isValidIP (s : String) : Bool :=
  go s.toList s
where
  go : List Char → String → Bool
  | [], _ => false
  | c :: rest, s =>
    if c == '.' then parseIPv4Valid s
    else if c == ':' then parseIPv6Valid s
    else if c == '%' then false
    else go rest s

/-- Model of `net.SplitHostPort`: splits `host:port` at the last colon,
handling a bracketed `[host]` form; returns `none` on any of its
error cases (missing port, too many colons, stray brackets). -/
def splitHostPort (hostport : String) : Option (String × String) :=
  let cs := hostport.toList
  match (cs.reverse.findIdx? (· == ':')).map (fun j => cs.length - 1 - j) with
  | none => none
  | some i =>
    if cs.head? == some '[' then
      match cs.findIdx? (· == ']') with
      | none => none
      | some e =>
        if e + 1 == cs.length then none
        else if e + 1 == i then
          if (cs.drop 1).any (· == '[') then none
          else if (cs.drop (e + 1)).any (· == ']') then none
          else some (String.mk ((cs.drop 1).take (e - 1)),
                     String.mk (cs.drop (i + 1)))
        else none
    else
      if (cs.take i).any (· == ':') then none
      else if cs.any (· == '[') then none
      else if cs.any (· == ']') then none
      else some (String.mk (cs.take i), String.mk (cs.drop (i + 1)))

/-- The request fields `getClientIP` reads: the two forwarding headers
(empty string when the header is absent) and `Request.RemoteAddr`. -/
structure IpHeaders where
  xForwardedFor : String
  xRealIP : String
  remoteAddr : String
deriving Repr, DecidableEq

/-- Model of `getClientIP` (handler/auth.go:246): prefer a non-empty
`X-Forwarded-For` that parses as an IP, then a non-empty `X-Real-IP`
that parses as an IP, then the host part of `RemoteAddr`, then
`RemoteAddr` itself when it does not split. -/
def getClientIP (h : IpHeaders) : String :=
  if h.xForwardedFor != "" && isValidIP h.xForwardedFor then
    h.xForwardedFor
  else if h.xRealIP != "" && isValidIP h.xRealIP then
    h.xRealIP
  else
    match splitHostPort h.remoteAddr with
    | some hp => hp.1
    | none => h.remoteAddr

/-! ## Custom HTTP error handler (main.go) -/

/-- The error value reaching `customErrorHandler`: an
`*echo.HTTPError` (whose `Message` may or may not be a string), or any
other Go error. -/
inductive EchoError where
  | httpError : Nat → Option String → EchoError
  | generic : String → EchoError
deriving Repr, DecidableEq

/-- Model of `echo.ErrUnauthorized`: the 401 HTTP error the auth middleware
returns when every strategy has fallen through; its message is
`http.StatusText(401) = "Unauthorized"`. -/
def echoErrUnauthorized : EchoError := .httpError 401 (some "Unauthorized")

/-- What `customErrorHandler` does to the response. -/
inductive ErrorAction where
  | redirect : Nat → String → ErrorAction
  | jsonError : Nat → String → ErrorAction
  | committedNoop : ErrorAction
deriving Repr, DecidableEq

/-- Model of `customErrorHandler` (main.go:205): default 500 / "internal server
error"; an `*echo.HTTPError` contributes its code, and its message
when that is a string; a non-API route (route path not starting with
"/api/") with code 401 is answered with a 307 redirect to "/"; an
already-committed response is left alone; otherwise a JSON body
carrying the message is written with the code. -/
def customErrorHandler (err : EchoError) (routePath : String)
    (committed : Bool) : ErrorAction :=
  let codeMsg : Nat × String :=
    match err with
    | .httpError c (some m) => (c, m)
    | .httpError c none => (c, "internal server error")
    | .generic _ => (500, "internal server error")
  let isAPICall := "/api/".toList.isPrefixOf routePath.toList
  if ¬ isAPICall = true ∧ codeMsg.1 = 401 then
    .redirect 307 "/"
  else if committed then
    .committedNoop
  else
    .jsonError codeMsg.1 codeMsg.2

/-- Result of the `POST /login` handler (handler/auth.go `Login`). -/
inductive LoginResult where
  | unauthorized : LoginResult
  | success : HttpCookie → LoginResult
deriving Repr, DecidableEq

/-- Model of `AuthHandler.Login`: authenticates the posted credentials, patches
`cookie.Secure = c.IsTLS()`, sets the cookie and returns 204. -/
def loginHandler (a : Authenticator) (creds : Credentials) (isTLS : Bool)
    (now : Nat) : LoginResult :=
  match Authenticate a creds now with
  | .error _ => .unauthorized
  | .ok cookie => .success { cookie with secure := isTLS }

/-! ## Shared helper lemmas and example fixtures -/

/-- Helper: `List.getD` at an in-range index is a member of the list. -/
theorem getD_mem_of_lt {α : Type} {l : List α} {i : Nat} {d : α}
    (h : i < l.length) : l.getD i d ∈ l := by
  rw [List.getD_eq_getElem l d h]
  exact List.getElem_mem h

/-- A successful `LinksRepo.Create` stores exactly the slug it was
given. -/
theorem linksCreate_ok_slug {db : Db} {slug url : String} {now : Nat}
    {row : LinkRow} {db' : Db}
    (h : linksCreate db slug url now = .ok (row, db')) : row.slug = slug := by
  unfold linksCreate insertLink at h
  split at h
  · simp at h
  · simp at h
    rename_i r0 d0 heq
    obtain ⟨h1, _⟩ := h
    split at heq
    · simp at heq
    · simp at heq
      obtain ⟨h2, _⟩ := heq
      subst h1
      rw [← h2]

/-- Example authenticator used by concrete witnesses. -/
def authEx : Authenticator :=
  { credentials := { username := "admin", password := "hunter2" }
    jwtSecret := "jwt-secret" }

/-- Example database used by concrete witnesses: one link (id 1) with
one recorded click. -/
def dbEx : Db :=
  { links := [{ id := 1, slug := "abc12", url := "https://example.com"
                createdAt := 10 }]
    clicks := [{ id := 1, linkId := 1, clickedAt := 50
                 userAgent := "curl", ipAddress := "203.0.113.9" }]
    nextLinkId := 2
    nextClickId := 2 }

/-! ## Claim theorems -/

/-- C2: for every request carrying a cookie whose token fails
verification together with valid Basic-Auth credentials, the
middleware grants access — the cookie failure falls through as
not-applicable — and a freshly issued session cookie (signed now for
the submitted username) is set on the response. -/
theorem c2_stale_cookie_with_basic_auth_grants_and_refreshes
    (a : Authenticator) (v : TokenStr) (creds : Credentials) (tls : Bool)
    (now : Nat) (e : JwtError)
    (hv : checkJWT a v now = .error e)
    (hc : a.credentials.check creds = true) :
    authMiddleware a
        { authCookie := some v, basicAuth := some creds, isTLS := tls } now =
      .granted [{ generateCookie a creds.username now with secure := tls }] ∧
    ({ generateCookie a creds.username now with secure := tls }).value =
      .signed (signJWT a creds.username now) := by
  refine ⟨?_, rfl⟩
  cases v with
  | empty =>
    simp [authMiddleware, authWithCookie, authWithBasicAuth, Authenticate, hc]
  | garbage s =>
    simp [authMiddleware, authWithCookie, authWithBasicAuth, Authenticate,
      checkJWT, hc]
  | signed t =>
    simp [authMiddleware, authWithCookie, authWithBasicAuth, Authenticate,
      hv, hc]

/-- C2 witness: an expired cookie plus the correct basic-auth pair is
granted access and receives the fresh cookie. -/
theorem c2_witness :
    checkJWT authEx
        (.signed (signJWT authEx "admin" 0)) (tokenExpiry + 5) =
      .error .expired ∧
    authEx.credentials.check { username := "admin", password := "hunter2" } =
      true ∧
    authMiddleware authEx
        { authCookie := some (.signed (signJWT authEx "admin" 0))
          basicAuth := some { username := "admin", password := "hunter2" }
          isTLS := false } (tokenExpiry + 5) =
      .granted
        [{ generateCookie authEx "admin" (tokenExpiry + 5) with
            secure := false }] := by
  refine ⟨by rfl, by rfl, ?_⟩
  exact (c2_stale_cookie_with_basic_auth_grants_and_refreshes authEx
    (.signed (signJWT authEx "admin" 0))
    { username := "admin", password := "hunter2" } false (tokenExpiry + 5)
    .expired (by rfl) (by rfl)).1

/-- C3: for every credentials pair equal to the configured pair,
`Authenticate` succeeds with a cookie whose token, verified at any
time before the 30-day expiry, yields the submitted username as
subject. -/
theorem c3_authenticate_roundtrip_same_subject
    (a : Authenticator) (creds : Credentials) (now t : Nat)
    (hc : a.credentials.check creds = true)
    (ht : t < now + tokenExpiry) :
    Authenticate a creds now = .ok (generateCookie a creds.username now) ∧
    checkJWT a (generateCookie a creds.username now).value t =
      .ok { subject := creds.username, issuedAt := now
            expiresAt := now + tokenExpiry } := by
  constructor
  · simp [Authenticate, hc]
  · simp [generateCookie, checkJWT, signJWT, ht]

/-- C3 witness: the configured pair authenticates and the token
round-trips with subject "admin". -/
theorem c3_witness :
    authEx.credentials.check { username := "admin", password := "hunter2" } =
      true ∧
    (0 : Nat) < 0 + tokenExpiry ∧
    Authenticate authEx { username := "admin", password := "hunter2" } 0 =
      .ok (generateCookie authEx "admin" 0) ∧
    checkJWT authEx (generateCookie authEx "admin" 0).value 0 =
      .ok { subject := "admin", issuedAt := 0, expiresAt := 0 + tokenExpiry } := by
  refine ⟨by rfl, by decide, ?_⟩
  exact c3_authenticate_roundtrip_same_subject authEx
    { username := "admin", password := "hunter2" } 0 0 (by rfl) (by decide)

/-- C5 counterexample: over a TLS connection, the cookie-refresh path
issues the refreshed session cookie with `Secure = false`, so "Secure
iff TLS" fails for a cookie the system issues. -/
theorem c5_counterexample_refresh_not_secure_over_tls :
    authMiddleware authEx
        { authCookie := some (.signed (signJWT authEx "admin" 0))
          basicAuth := none, isTLS := true } 5 =
      .granted [generateCookie authEx "admin" 5] ∧
    (generateCookie authEx "admin" 5).secure = false := by
  exact ⟨rfl, rfl⟩

/-- C5 (amended): cookies issued by the login handler and by the
basic-auth strategy carry `Secure` iff the connection is TLS; the
cookie issued by the cookie-refresh path always has `Secure = false`,
so no path ever sets `Secure` over plaintext but the refresh path
fails to set it over TLS. -/
theorem c5_secure_flag_per_issuing_path
    (a : Authenticator) (creds : Credentials) (req : EchoRequest)
    (now : Nat) :
    (∀ cookie, loginHandler a creds req.isTLS now = .success cookie →
      cookie.secure = req.isTLS) ∧
    (∀ cookie ∈ (authWithBasicAuth a req now).setCookies,
      cookie.secure = req.isTLS) ∧
    (∀ cookie ∈ (authWithCookie a req now).setCookies,
      cookie.secure = false) := by
  refine ⟨?_, ?_, ?_⟩
  · intro cookie h
    unfold loginHandler at h
    split at h
    · exact absurd h (by simp)
    · cases h
      rfl
  · intro cookie h
    unfold authWithBasicAuth at h
    split at h
    · simp at h
    · split at h
      · simp at h
      · simp at h
        subst h
        rfl
  · intro cookie h
    unfold authWithCookie at h
    split at h
    · simp at h
    · split at h
      · simp at h
      · split at h
        · simp at h
        · simp at h
          subst h
          rfl

/-- C5 witness: the amended per-path behavior at concrete inputs — a
TLS basic-auth request gets a secure cookie, and the refresh path
issues a non-secure cookie. -/
theorem c5_witness :
    ({ generateCookie authEx "admin" 7 with secure := true }).secure = true ∧
    (generateCookie authEx "admin" 7).secure = false := by
  have h := c5_secure_flag_per_issuing_path authEx
    { username := "admin", password := "hunter2" }
    { authCookie := some (.signed (signJWT authEx "admin" 0))
      basicAuth := some { username := "admin", password := "hunter2" }
      isTLS := true } 7
  exact ⟨h.2.1 { generateCookie authEx "admin" 7 with secure := true }
      (by decide),
    h.2.2 (generateCookie authEx "admin" 7) (by decide)⟩

/-- C10: an Unauthorized error on a route whose path does not start
with "/api/" is turned into a 307 temporary redirect to "/", never a
401 body; on an "/api/"-routed request it stays a 401 JSON error. -/
theorem c10_unauthorized_redirects_only_non_api
    (path msg : String) (committed : Bool) :
    ("/api/".toList.isPrefixOf path.toList = false →
      customErrorHandler (.httpError 401 (some msg)) path committed =
        .redirect 307 "/") ∧
    ("/api/".toList.isPrefixOf path.toList = true →
      customErrorHandler (.httpError 401 (some msg)) path false =
        .jsonError 401 msg) := by
  constructor
  · intro h
    simp only [customErrorHandler, h]
    simp
  · intro h
    simp only [customErrorHandler, h]
    simp

/-- C10 witness: the middleware's own 401 (`echo.ErrUnauthorized`) is
redirected on "/dashboard" and surfaced as 401 JSON on "/api/links". -/
theorem c10_witness :
    customErrorHandler echoErrUnauthorized "/dashboard" false =
      .redirect 307 "/" ∧
    customErrorHandler echoErrUnauthorized "/api/links" false =
      .jsonError 401 "Unauthorized" := by
  have h1 := c10_unauthorized_redirects_only_non_api "/dashboard"
    "Unauthorized" false
  have h2 := c10_unauthorized_redirects_only_non_api "/api/links"
    "Unauthorized" false
  exact ⟨h1.1 (by decide), h2.2 (by decide)⟩

/-- Example database with one link and no clicks (fixture for the
click-ledger round trip). -/
def dbZero : Db :=
  { links := [{ id := 1, slug := "abc12", url := "https://example.com"
                createdAt := 10 }]
    clicks := []
    nextLinkId := 2
    nextClickId := 1 }

/-- C1 (bug evidence): creating slug "abc123" twice. The second
`LinksRepo.Create` returns the raw unique-constraint storage error,
which is not the `internal.ErrSlugExists` sentinel, so the handler's
409 branch — which exists and fires exactly on that sentinel — is
bypassed and the API caller receives 500, not the specified 409. The
first link does remain retrievable by `GetBySlug`. -/
theorem c1_collision_answers_500_not_409 :
    createLink Db.empty { url := "https://example.com", slug := "abc123" }
        (fun _ => 0) 10 =
      (.created { id := 1, slug := "abc123", url := "https://example.com"
                  createdAt := 10 },
       { links := [{ id := 1, slug := "abc123", url := "https://example.com"
                     createdAt := 10 }]
         clicks := [], nextLinkId := 2, nextClickId := 1 }) ∧
    (createLink
        { links := [{ id := 1, slug := "abc123", url := "https://example.com"
                      createdAt := 10 }]
          clicks := [], nextLinkId := 2, nextClickId := 1 }
        { url := "https://example.org", slug := "abc123" }
        (fun _ => 0) 20).1 =
      .serverError (.dbErr (.uniqueConstraint "links" "slug")) ∧
    (CreateLinkResult.serverError
        (.dbErr (.uniqueConstraint "links" "slug"))).status = 500 ∧
    RepoError.dbErr (.uniqueConstraint "links" "slug") ≠ .slugExists ∧
    createLinkErrResult .slugExists = .conflict ∧
    getBySlug
        { links := [{ id := 1, slug := "abc123", url := "https://example.com"
                      createdAt := 10 }]
          clicks := [], nextLinkId := 2, nextClickId := 1 } "abc123" =
      .ok { id := 1, slug := "abc123", url := "https://example.com"
            createdAt := 10, clicks := 0, lastClick := none } := by
  refine ⟨rfl, rfl, rfl, by decide, rfl, rfl⟩

/-- C4 counterexample: the generated slug is not drawn from a
lowercase-and-digits alphabet with confusables excluded — the draw
index 26 yields "AAAAAA" (uppercase), also through a Create call with
an empty slug, and the alphabet contains the confusable characters
'l', '0', '1', 'I' and 'O'. -/
theorem c4_counterexample_uppercase_and_confusables :
    generateSlug (fun _ => 26) = "AAAAAA" ∧
    'A'.isLower = false ∧
    'A'.isDigit = false ∧
    (createLink Db.empty { url := "https://example.com", slug := "" }
        (fun _ => 26) 10).1 =
      .created { id := 1, slug := "AAAAAA", url := "https://example.com"
                 createdAt := 10 } ∧
    'l' ∈ slugCharset ∧ '0' ∈ slugCharset ∧ '1' ∈ slugCharset ∧
    'I' ∈ slugCharset ∧ 'O' ∈ slugCharset := by
  refine ⟨rfl, rfl, rfl, rfl, ?_, ?_, ?_, ?_, ?_⟩ <;> decide

/-- C4 (amended): with an empty request slug the handler uses
`GenerateSlug`, whose output is a 6-character string drawn from the
fixed 62-character alphabet of lowercase letters, uppercase letters
and digits (each uniform draw `rand.Intn(62)` indexes that full
alphabet; visually confusable characters are not excluded). -/
theorem c4_generated_slug_six_from_62_alphabet
    (r : Nat → Nat) (db : Db) (url : String) (now : Nat) :
    (generateSlug r).length = 6 ∧
    (∀ c ∈ (generateSlug r).toList, c ∈ slugCharset) ∧
    (∀ k ∈ List.range 62,
      generateSlug (fun _ => k) = ⟨List.replicate 6 (slugCharset.getD k 'a')⟩) ∧
    (∀ row db',
      createLink db { url := url, slug := "" } r now = (.created row, db') →
      row.slug = generateSlug r) := by
  refine ⟨?_, ?_, by decide, ?_⟩
  · simp [generateSlug, String.length]
  · intro c hc
    simp only [generateSlug, String.toList] at hc
    obtain ⟨i, _, rfl⟩ := List.mem_map.1 hc
    exact getD_mem_of_lt (Nat.mod_lt _ (by decide))
  · intro row db' hrun
    unfold createLink at hrun
    split at hrun
    · simp at hrun
    · split at hrun
      · simp [createLinkErrResult] at hrun
        split at hrun <;> simp at hrun
      · rename_i r0 d0 heq
        simp only [Prod.mk.injEq] at hrun
        have hs := linksCreate_ok_slug heq
        simp only [beq_self_eq_true, if_true] at hs
        cases hrun.1
        exact hs

/-- C4 witness: the amended statement at a concrete draw — the
all-zero randomness yields the 6-character slug "aaaaaa", and a Create
call with an empty slug stores exactly that generated slug. -/
theorem c4_witness :
    (generateSlug (fun _ => 0)).length = 6 ∧
    LinkRow.slug { id := 1, slug := "aaaaaa", url := "https://example.com"
                   createdAt := 10 } = generateSlug (fun _ => 0) := by
  have h := c4_generated_slug_six_from_62_alphabet (fun _ => 0) Db.empty
    "https://example.com" 10
  refine ⟨h.1, ?_⟩
  exact h.2.2.2
    { id := 1, slug := "aaaaaa", url := "https://example.com", createdAt := 10 }
    { links := [{ id := 1, slug := "aaaaaa", url := "https://example.com"
                  createdAt := 10 }]
      clicks := [], nextLinkId := 2, nextClickId := 1 } rfl

/-- C6: deleting an id matching no link answers `NotFound` (404)
rather than silently succeeding; deleting an existing link answers
204 and removes the link row together with every click row that
references it (the schema's `ON DELETE CASCADE`). The repository
`Delete` itself is modelled from the spec, its caller and the schema
being the parts present in the sources. -/
theorem c6_delete_404_on_missing_and_cascades
    (db : Db) (id : Nat) :
    ((∀ r ∈ db.links, r.id ≠ id) →
      deleteLink db id = (.notFound, db) ∧
      DeleteLinkResult.notFound.status = 404) ∧
    (∀ r ∈ db.links, r.id = id →
      (deleteLink db id).1 = .noContent ∧
      (∀ r' ∈ (deleteLink db id).2.links, r'.id ≠ id) ∧
      (∀ k ∈ (deleteLink db id).2.clicks, k.linkId ≠ id)) := by
  constructor
  · intro h
    have hany : db.links.any (fun r => r.id == id) = false := by
      simp only [List.any_eq_false]
      intro r hr
      simp [h r hr]
    refine ⟨?_, rfl⟩
    simp [deleteLink, linksDelete, hany]
  · intro r hr hid
    have hany : db.links.any (fun r => r.id == id) = true := by
      simp only [List.any_eq_true]
      exact ⟨r, hr, by simp [hid]⟩
    refine ⟨by simp [deleteLink, linksDelete, hany], ?_, ?_⟩
    · intro r' hr'
      simp only [deleteLink, linksDelete, hany, if_true] at hr'
      simpa using (List.mem_filter.1 hr').2
    · intro k hk
      simp only [deleteLink, linksDelete, hany, if_true] at hk
      simpa using (List.mem_filter.1 hk).2

/-- C6 witness: deleting id 42 from a store holding only id 1 fails
with 404; deleting id 1 succeeds with 204. -/
theorem c6_witness :
    deleteLink dbEx 42 = (.notFound, dbEx) ∧
    (deleteLink dbEx 1).1 = .noContent ∧
    (deleteLink dbEx 1).2.clicks = [] := by
  refine ⟨((c6_delete_404_on_missing_and_cascades dbEx 42).1 (by decide)).1,
    ((c6_delete_404_on_missing_and_cascades dbEx 1).2
      { id := 1, slug := "abc12", url := "https://example.com"
        createdAt := 10 } (by decide) rfl).1, rfl⟩

/-- C7: the stats aggregate never errors — with zero recorded clicks
it returns total 0 and an absent last-clicked timestamp, and after
recording clicks at times t1 < t2 < t3 it returns total 3 with
last-clicked t3. -/
theorem c7_stats_zero_then_three_clicks
    (db : Db) (linkId : Nat) (ua ip : String) (t1 t2 t3 : Nat)
    (hlink : db.links.any (fun r => r.id == linkId) = true)
    (hzero : db.clicks.filter (fun r => r.linkId == linkId) = [])
    (h12 : t1 < t2) (h23 : t2 < t3) :
    getStatsForLink db linkId = { total := 0, lastClickedAt := none } ∧
    ∃ db1 db2 db3,
      clicksCreate db linkId ua ip t1 false = .ok db1 ∧
      clicksCreate db1 linkId ua ip t2 false = .ok db2 ∧
      clicksCreate db2 linkId ua ip t3 false = .ok db3 ∧
      getStatsForLink db3 linkId = { total := 3, lastClickedAt := some t3 } := by
  have hmax : max (max t1 t2) t3 = t3 := by
    rw [max_eq_right (Nat.le_of_lt h12), max_eq_right (Nat.le_of_lt h23)]
  constructor
  · simp only [getStatsForLink, hzero]
    rfl
  · refine ⟨{ db with
        clicks := db.clicks ++ [⟨db.nextClickId, linkId, t1, ua, ip⟩],
        nextClickId := db.nextClickId + 1 },
      { db with
        clicks := (db.clicks ++ [⟨db.nextClickId, linkId, t1, ua, ip⟩]) ++
          [⟨db.nextClickId + 1, linkId, t2, ua, ip⟩],
        nextClickId := db.nextClickId + 1 + 1 },
      { db with
        clicks := ((db.clicks ++ [⟨db.nextClickId, linkId, t1, ua, ip⟩]) ++
          [⟨db.nextClickId + 1, linkId, t2, ua, ip⟩]) ++
          [⟨db.nextClickId + 1 + 1, linkId, t3, ua, ip⟩],
        nextClickId := db.nextClickId + 1 + 1 + 1 },
      by simp [clicksCreate, hlink], by simp [clicksCreate, hlink],
      by simp [clicksCreate, hlink], ?_⟩
    simp only [getStatsForLink, List.filter_append, hzero, List.filter,
      beq_self_eq_true, lastClickFold, List.foldl]
    simp [hmax]

/-- C7 witness: on a store with one link and no clicks, the stats are
`{0, none}`, and after clicks at times 1 < 2 < 3 they are
`{3, some 3}`. -/
theorem c7_witness :
    getStatsForLink dbZero 1 = { total := 0, lastClickedAt := none } ∧
    ∃ db1 db2 db3,
      clicksCreate dbZero 1 "curl" "203.0.113.9" 1 false = .ok db1 ∧
      clicksCreate db1 1 "curl" "203.0.113.9" 2 false = .ok db2 ∧
      clicksCreate db2 1 "curl" "203.0.113.9" 3 false = .ok db3 ∧
      getStatsForLink db3 1 = { total := 3, lastClickedAt := some 3 } :=
  c7_stats_zero_then_three_clicks dbZero 1 "curl" "203.0.113.9" 1 2 3
    (by decide) rfl (by decide) (by decide)

/-- C8: whenever the slug resolves, exactly one click insert is
attempted and the 308 redirect to the stored URL is emitted whether or
not that insert fails; an unknown slug answers 404 with no click
attempted. -/
theorem c8_redirect_emitted_regardless_of_click_write
    (db : Db) (slug ua ip : String) (now : Nat) (fail : Bool) :
    (∀ link, getBySlug db slug = .ok link →
      (redirectHandler db slug ua ip now fail).response =
        .redirect 308 link.url ∧
      (redirectHandler db slug ua ip now fail).clickAttempts = 1) ∧
    (∀ e, getBySlug db slug = .error e →
      redirectHandler db slug ua ip now fail =
        { response := .notFound, db := db, clickAttempts := 0 } ∧
      RedirectResult.notFound.status = 404) := by
  constructor
  · intro link h
    unfold redirectHandler
    rw [h]
    cases hc : clicksCreate db link.id ua ip now fail <;> simp [hc]
  · intro e h
    unfold redirectHandler
    rw [h]
    exact ⟨rfl, rfl⟩

/-- C8 witness: a known slug redirects with status 308 and one click
attempt even when the click insert fails; an unknown slug answers
404. -/
theorem c8_witness :
    (redirectHandler dbEx "abc12" "curl" "203.0.113.9" 60 true).response =
      .redirect 308 "https://example.com" ∧
    (redirectHandler dbEx "abc12" "curl" "203.0.113.9" 60 true).clickAttempts =
      1 ∧
    redirectHandler dbEx "missing" "curl" "203.0.113.9" 60 false =
      { response := .notFound, db := dbEx, clickAttempts := 0 } := by
  have h1 := (c8_redirect_emitted_regardless_of_click_write dbEx "abc12"
    "curl" "203.0.113.9" 60 true).1
    { id := 1, slug := "abc12", url := "https://example.com", createdAt := 10
      clicks := 1, lastClick := some 50 } rfl
  have h2 := (c8_redirect_emitted_regardless_of_click_write dbEx "missing"
    "curl" "203.0.113.9" 60 false).2 (.plain "link not found") rfl
  exact ⟨h1.1, h1.2, h2.1⟩

/-- C9: the recorded client IP follows the precedence X-Forwarded-For
(when non-empty and a syntactically valid IP), then X-Real-IP (same
test), then the host part of the peer address, then the raw peer
address when it does not split. -/
theorem c9_client_ip_precedence (h : IpHeaders) :
    (h.xForwardedFor ≠ "" → isValidIP h.xForwardedFor = true →
      getClientIP h = h.xForwardedFor) ∧
    ((h.xForwardedFor = "" ∨ isValidIP h.xForwardedFor = false) →
      h.xRealIP ≠ "" → isValidIP h.xRealIP = true →
      getClientIP h = h.xRealIP) ∧
    ((h.xForwardedFor = "" ∨ isValidIP h.xForwardedFor = false) →
      (h.xRealIP = "" ∨ isValidIP h.xRealIP = false) →
      ∀ host port, splitHostPort h.remoteAddr = some (host, port) →
        getClientIP h = host) ∧
    ((h.xForwardedFor = "" ∨ isValidIP h.xForwardedFor = false) →
      (h.xRealIP = "" ∨ isValidIP h.xRealIP = false) →
      splitHostPort h.remoteAddr = none →
      getClientIP h = h.remoteAddr) := by
  refine ⟨?_, ?_, ?_, ?_⟩
  · intro hne hv
    simp [getClientIP, hne, hv]
  · intro hf hne hv
    have hxf : (h.xForwardedFor != "" && isValidIP h.xForwardedFor) = false := by
      cases hf with
      | inl he => simp [he]
      | inr he => simp [he]
    simp [getClientIP, hxf, hne, hv]
  · intro hf hx host port hsp
    have hxf : (h.xForwardedFor != "" && isValidIP h.xForwardedFor) = false := by
      cases hf with
      | inl he => simp [he]
      | inr he => simp [he]
    have hxr : (h.xRealIP != "" && isValidIP h.xRealIP) = false := by
      cases hx with
      | inl he => simp [he]
      | inr he => simp [he]
    simp [getClientIP, hxf, hxr, hsp]
  · intro hf hx hsp
    have hxf : (h.xForwardedFor != "" && isValidIP h.xForwardedFor) = false := by
      cases hf with
      | inl he => simp [he]
      | inr he => simp [he]
    have hxr : (h.xRealIP != "" && isValidIP h.xRealIP) = false := by
      cases hx with
      | inl he => simp [he]
      | inr he => simp [he]
    simp [getClientIP, hxf, hxr, hsp]

/-- C9 witness: with `X-Forwarded-For: 203.0.113.5` and a different
peer address the recorded IP is 203.0.113.5; with no forwarding
headers it is the host part of the peer address. -/
theorem c9_witness :
    getClientIP { xForwardedFor := "203.0.113.5", xRealIP := ""
                  remoteAddr := "198.51.100.7:4242" } = "203.0.113.5" ∧
    getClientIP { xForwardedFor := "", xRealIP := ""
                  remoteAddr := "198.51.100.7:4242" } = "198.51.100.7" := by
  constructor
  · exact (c9_client_ip_precedence
      { xForwardedFor := "203.0.113.5", xRealIP := ""
        remoteAddr := "198.51.100.7:4242" }).1 (by decide) (by decide)
  · exact (c9_client_ip_precedence
      { xForwardedFor := "", xRealIP := ""
        remoteAddr := "198.51.100.7:4242" }).2.2.1 (.inl rfl) (.inl rfl)
      "198.51.100.7" "4242" (by decide)

end Linked
